import Mathlib

/-!
Verification development for the fstore repository (an append-oriented
single-file block store written in Rust).

The development shallowly embeds the relevant Rust sources:

* `src/crypto.rs`       — the `BlockHasher` trait and its two implementations;
* `src/data_header.rs`  — the `DataHeader` block header and its
  (de)serialization;
* `src/data_block.rs`   — the legacy `DataBlock` header;
* `src/store.rs`        — the `Store` engine (create / open / write / delete).

Files are modelled as lists of bytes (`List Nat`, each entry a value of a
Rust `u8`, hence < 256); the file cursor is an explicit position.  Fallible
operations return `Except`; a Rust panic (out-of-range slice indexing) is an
explicit outcome of the embedded function.
-/

/-! ## Byte-level utilities -/

/-- Little-endian encoding of `v` into `w` bytes, exactly as Rust's
`to_le_bytes` behaves on a value already reduced into the integer type. -/
def natLE (w v : Nat) : List Nat :=
  match w with
  | 0 => []
  | w' + 1 => v % 256 :: natLE w' (v / 256)

/-- Rust `u64::to_le_bytes`. -/
def u64LE (v : Nat) : List Nat := natLE 8 v

/-- Rust `u32::to_le_bytes`. -/
def u32LE (v : Nat) : List Nat := natLE 4 v

/-- Little-endian decoding of a byte list, as Rust's `from_le_bytes`.
Each entry is reduced mod 256 because Rust bytes are `u8`. -/
def leToNat : List Nat → Nat
  | [] => 0
  | b :: r => b % 256 + 256 * leToNat r

/-- Rust `i64::from_le_bytes`: little-endian decoding into a signed 64-bit
value (two's complement). -/
def i64FromLE (l : List Nat) : Int :=
  let v := leToNat l
  if v < 2 ^ 63 then (v : Int) else (v : Int) - 2 ^ 64

@[simp] theorem natLE_length (w v : Nat) : (natLE w v).length = w := by
  induction w generalizing v with
  | zero => rfl
  | succ w ih => simp [natLE, ih]

@[simp] theorem u64LE_length (v : Nat) : (u64LE v).length = 8 := natLE_length 8 v

@[simp] theorem u32LE_length (v : Nat) : (u32LE v).length = 4 := natLE_length 4 v

/-! ## Hashers (`src/crypto.rs`)

The Rust trait is

    pub trait BlockHasher {
        fn create() -> Self;
        fn hash(&mut self, input: &[u8]) -> &[u8];
        fn size() -> usize;
    }

`hash` only caches its result in `self`, so the trait is modelled by a pure
digest function together with the advertised `size` constant. -/

structure BlockHasher where
  hash : List Nat → List Nat
  size : Nat

/-- `NullBlockHasher` from `src/crypto.rs`: `hash` returns the slice `&[0]`
(one zero byte) and `size()` returns 0. -/
def nullBlockHasher : BlockHasher :=
  { hash := fun _ => [0], size := 0 }

/-- `B3BlockHasher` from `src/crypto.rs`.  Its digest is computed by the
external `blake3` crate (not code of this repository); the repository's code
fixes the digest width to 32 bytes (`hash_value: [u8; 32]`) and advertises
`size() = 256`.  We therefore parameterize over the digest function and,
where a claim depends on the width, constrain it to 32-byte outputs. -/
def b3BlockHasher (digest : List Nat → List Nat) : BlockHasher :=
  { hash := digest, size := 256 }

/-- The property `src/crypto.rs` gives the BLAKE3 digest by type:
`hash_value: [u8; 32]`, i.e. every output is exactly 32 bytes. -/
def Blake3Width (digest : List Nat → List Nat) : Prop :=
  ∀ x, (digest x).length = 32

/-- A minimal hasher conforming to the `BlockHasher` trait whose digest
depends on its input (digest = sum of the bytes plus the length, one byte
wide).  It stands in for input-dependent hashers such as BLAKE3 — whose
digest the external `blake3` crate computes — in concrete counterexamples:
any hasher whose digest distinguishes the serialized header buffer from the
payload exhibits the same behaviour. -/
def lenSumHasher : BlockHasher :=
  { hash := fun l => [(l.foldl (· + ·) 0 + l.length) % 256], size := 1 }

/-! ## `DataHeader` (`src/data_header.rs`) -/

/-- The state of a `DataHeader<T>`: `size_data`, `state_flag`,
`address_next`.  The `header` vector in the Rust struct is only the output
buffer of `serialize`, modelled here as the return value, and `phantom` has
no runtime content. -/
structure DataHeader where
  size_data : Nat
  state_flag : Nat
  address_next : Nat
deriving DecidableEq

/-- `DataHeader::new()`: `size_data = 0` (nothing ever sets it),
`state_flag = STATE_FLAG_ALLOC = 0`, `address_next = DEFAULT_ADDR_NEXT = 0`. -/
def DataHeader.new : DataHeader :=
  { size_data := 0, state_flag := 0, address_next := 0 }

/-- `DataHeader::serialize(&mut self, data)`: emits `size_data`, `state_flag`
and `address_next` in little-endian order followed by `T::create().hash(data)`. -/
def DataHeader.serialize (H : BlockHasher) (self : DataHeader) (data : List Nat) : List Nat :=
  u64LE self.size_data ++ u32LE self.state_flag ++ u64LE self.address_next ++ H.hash data

/-- `DataHeader::size()`: `(size_of::<u64>() * 2) + size_of::<u32>() + T::size()`. -/
def DataHeader.size (H : BlockHasher) : Nat :=
  (8 * 2) + 4 + H.size

/-- `DataHeader::read_ahead_size()`: `size_of::<u64>()`. -/
def DataHeader.read_ahead_size : Nat := 8

/-- `DataHeader::delete_offset()`: `size_of::<u64>()`. -/
def DataHeader.delete_offset : Nat := 8

/-- `DataHeader::delete_flag()`: `STATE_FLAG_DELETE = 1`. -/
def DataHeader.delete_flag : Nat := 1

/-- `DataHeader::read_ahead(_buffer)`: the body computes
`i64::try_from(size_of::<u64>() + size_of::<u32>() + T::size())` and returns
it, ignoring `_buffer` entirely (the conversion cannot fail for the sizes at
hand).  So the result is the constant `8 + 4 + T::size()`. -/
def DataHeader.read_ahead (H : BlockHasher) (_buffer : List Nat) : Int :=
  8 + 4 + H.size

/-- Rust slice indexing `data[a..b]`: panics unless `a ≤ b ≤ data.len()`;
`none` models the panic. -/
def rustSlice (data : List Nat) (a b : Nat) : Option (List Nat) :=
  if a ≤ b ∧ b ≤ data.length then some ((data.drop a).take (b - a)) else none

/-- Rust slice indexing `data[a..]`: panics unless `a ≤ data.len()`. -/
def rustSliceFrom (data : List Nat) (a : Nat) : Option (List Nat) :=
  if a ≤ data.length then some (data.drop a) else none

/-- The observable outcome of `DataHeader::deserialize`: success with the
parsed fields, the hash-mismatch error (the fields were already assigned to
`self` before the check, so the error carries them too), or a Rust panic
from an out-of-range slice. -/
inductive DeserResult where
  | ok : DataHeader → DeserResult
  | err : DataHeader → String → DeserResult
  | panicked : DeserResult
deriving DecidableEq

/-- `DataHeader::deserialize(&mut self, data)`: decodes `data[0..8]`,
`data[8..12]`, `data[12..20]` little-endian into the three fields, then
checks `T::create().hash(data) != &data[20..]` — note the hash is taken over
the whole `data` buffer that was passed in — and fails with the
`"Block Hashes do not match."` error on mismatch.  Slicing a too-short
buffer panics. -/
def DataHeader.deserialize (H : BlockHasher) (data : List Nat) : DeserResult :=
  match rustSlice data 0 8 with
  | none => .panicked
  | some b0 =>
    match rustSlice data 8 12 with
    | none => .panicked
    | some b1 =>
      match rustSlice data 12 20 with
      | none => .panicked
      | some b2 =>
        match rustSliceFrom data 20 with
        | none => .panicked
        | some tail =>
          let parsed : DataHeader :=
            { size_data := leToNat b0, state_flag := leToNat b1, address_next := leToNat b2 }
          if H.hash data ≠ tail then .err parsed "Block Hashes do not match."
          else .ok parsed

/-! ## `DataBlock` (`src/data_block.rs`), the legacy header -/

/-- `DataBlock::size()`: `(size_of::<u64>() * 2) + (size_of::<u32>() * 2)`. -/
def DataBlock.size : Nat := (8 * 2) + (4 * 2)

/-- `DataBlock::read_ahead(size)`: `i64::from_le_bytes(size[0..8]) + mds`
with `mds = size_of::<u64>() + size_of::<u32>() * 2 = 16`; slicing a buffer
shorter than 8 bytes panics (`none`). -/
def DataBlock.read_ahead (size : List Nat) : Option Int :=
  match rustSlice size 0 8 with
  | none => none
  | some b => some (i64FromLE b + 16)

/-! ## File model

A file is a byte list together with an explicit cursor.  `fileRead` models
`Read::read` into a zero-initialized buffer of length `n`: the available
bytes are copied and the remainder of the buffer keeps its zeros; the cursor
advances by the number of bytes actually read.  `fileWrite` models
`Write::write` at a cursor, zero-filling any gap beyond end-of-file (the
POSIX behaviour of writing after `seek` past the end) and overwriting in
place otherwise. -/

/-- Result of reading `n` bytes at position `pos`: the buffer contents and
the new position. -/
def fileRead (f : List Nat) (pos n : Nat) : List Nat × Nat :=
  let avail := (f.drop pos).take n
  (avail ++ List.replicate (n - avail.length) 0, pos + avail.length)

/-- Writing `b` at position `pos`. -/
def fileWrite (f : List Nat) (pos : Nat) (b : List Nat) : List Nat :=
  f.take pos ++ List.replicate (pos - f.length) 0 ++ b ++ f.drop (pos + b.length)

theorem fileWrite_of_le (f b : List Nat) (pos : Nat) (h : pos ≤ f.length) :
    fileWrite f pos b = f.take pos ++ b ++ f.drop (pos + b.length) := by
  simp [fileWrite, Nat.sub_eq_zero_of_le h]

/-! ## `Store` (`src/store.rs`) -/

/-- The access mode a Rust file handle was opened with:
`File::open` gives `readOnly`, while
`OpenOptions::new().write(true).read(true)` gives `readWrite`. -/
inductive FileMode where
  | readOnly : FileMode
  | readWrite : FileMode
deriving DecidableEq

/-- `Store`'s state: the backing file (with its cursor) plus the fields of
the Rust struct — `data_start_address` and `block_addresses`.  The hasher is
passed to the operations explicitly. -/
structure Store where
  file : List Nat
  pos : Nat
  data_start_address : Nat
  block_addresses : List Nat
  mode : FileMode
deriving DecidableEq

/-- The ASCII bytes of `STORE_VERSIONTAG = "FSTOREV.01BINARYR01"` (19 bytes). -/
def canonicalTagBytes : List Nat :=
  [70, 83, 84, 79, 82, 69, 86, 46, 48, 49, 66, 73, 78, 65, 82, 89, 82, 48, 49]

/-- The bytes written by `Store::write_file_descriptor`:
`STORE_VERSIONNUM = 1` as little-endian `u32`, then the tag length `19` as
little-endian `u64`, then the tag itself — 31 bytes in total. -/
def storeDescriptor : List Nat :=
  u32LE 1 ++ u64LE 19 ++ canonicalTagBytes

/-- Errors of the store operations modelled here.  Both failure paths of
`Store::new` build an `std::io::Error` with kind `InvalidData`, differing
only in the message. -/
inductive StoreErr where
  | invalidData : String → StoreErr
deriving DecidableEq

/-- `Store::create(filename, hasher)`: opens with
`OpenOptions::new().write(true).read(true).create(true)` — creating the file
if absent but NOT truncating an existing one — then writes the descriptor at
the start and returns the struct literal with `data_start_address: 0` and an
empty `block_addresses`.  `existing` is the prior content of the path (`[]`
for a fresh file). -/
def Store.create (existing : List Nat) : Store :=
  { file := fileWrite existing 0 storeDescriptor
    pos := storeDescriptor.length
    data_start_address := 0
    block_addresses := []
    mode := .readWrite }

/-- Modelled from the spec: `Store::write` in `src/store.rs` calls
`DataHeader::<U, T>::new(buf, &self.hasher)`, but that two-argument
constructor is absent from `src/data_header.rs` (which only has the
zero-argument `new()`).  Per the spec (§4.2: `size_data` is computed as
`len(payload)`) and the sibling `DataBlock::new` (which sets
`size_data: u64::try_from(data.len())`), the header built for a payload has
`size_data = len(buf)` and the default flag and next-address. -/
def DataHeader.newFor (buf : List Nat) : DataHeader :=
  { size_data := buf.length, state_flag := 0, address_next := 0 }

/-- `impl Write for Store — fn write(&mut self, buf)`: serializes the header
built for `buf`, writes it, writes `buf`, and then pushes
`self.file.seek(SeekFrom::Current(0))` — the position AFTER both writes —
onto `block_addresses`.  Returns the store (the byte count returned by the
Rust method is `buf.len()`). -/
def Store.write (H : BlockHasher) (s : Store) (buf : List Nat) : Store :=
  let hb := DataHeader.serialize H (DataHeader.newFor buf) buf
  let f1 := fileWrite s.file s.pos hb
  let p1 := s.pos + hb.length
  let f2 := fileWrite f1 p1 buf
  let p2 := p1 + buf.length
  { s with file := f2, pos := p2, block_addresses := s.block_addresses ++ [p2] }

/-- `StoreIO — fn len(&self)`: `self.block_addresses.len()`. -/
def Store.len (s : Store) : Nat := s.block_addresses.length

/-- `StoreIO — fn block_address(&self, index)`: `self.block_addresses.get(index)`. -/
def Store.block_address (s : Store) (index : Nat) : Option Nat :=
  s.block_addresses.get? index

/-- `StoreIO — fn delete_block(&mut self, index)`: if `index` is in bounds,
seek to `block_addresses[index] + delete_offset()`, write
`delete_flag().to_le_bytes()` (the `u32` value 1), and seek back to the
start of the file; otherwise return the `"Value out of bounds."` error. -/
def Store.delete_block (s : Store) (index : Nat) : Except StoreErr Store :=
  match s.block_addresses.get? index with
  | some address =>
      .ok { s with
              file := fileWrite s.file (address + DataHeader.delete_offset)
                        (u32LE DataHeader.delete_flag)
              pos := 0 }
  | none => .error (.invalidData "Value out of bounds.")

/-- Whether a byte list is valid UTF-8, as checked by Rust's
`String::from_utf8` (RFC 3629: no overlong forms, no surrogates, at most
U+10FFFF). -/
def utf8Valid : List Nat → Bool
  | [] => true
  | b :: rest =>
    if b ≤ 0x7F then utf8Valid rest
    else if 0xC2 ≤ b ∧ b ≤ 0xDF then
      match rest with
      | b1 :: r => (0x80 ≤ b1 && b1 ≤ 0xBF) && utf8Valid r
      | [] => false
    else if b = 0xE0 then
      match rest with
      | b1 :: b2 :: r => (0xA0 ≤ b1 && b1 ≤ 0xBF) && (0x80 ≤ b2 && b2 ≤ 0xBF) && utf8Valid r
      | _ => false
    else if (0xE1 ≤ b ∧ b ≤ 0xEC) ∨ b = 0xEE ∨ b = 0xEF then
      match rest with
      | b1 :: b2 :: r =>
          (0x80 ≤ b1 && b1 ≤ 0xBF) && (0x80 ≤ b2 && b2 ≤ 0xBF) && utf8Valid r
      | _ => false
    else if b = 0xED then
      match rest with
      | b1 :: b2 :: r => (0x80 ≤ b1 && b1 ≤ 0x9F) && (0x80 ≤ b2 && b2 ≤ 0xBF) && utf8Valid r
      | _ => false
    else if b = 0xF0 then
      match rest with
      | b1 :: b2 :: b3 :: r =>
          (0x90 ≤ b1 && b1 ≤ 0xBF) && (0x80 ≤ b2 && b2 ≤ 0xBF) &&
            (0x80 ≤ b3 && b3 ≤ 0xBF) && utf8Valid r
      | _ => false
    else if 0xF1 ≤ b ∧ b ≤ 0xF3 then
      match rest with
      | b1 :: b2 :: b3 :: r =>
          (0x80 ≤ b1 && b1 ≤ 0xBF) && (0x80 ≤ b2 && b2 ≤ 0xBF) &&
            (0x80 ≤ b3 && b3 ≤ 0xBF) && utf8Valid r
      | _ => false
    else if b = 0xF4 then
      match rest with
      | b1 :: b2 :: b3 :: r =>
          (0x80 ≤ b1 && b1 ≤ 0x8F) && (0x80 ≤ b2 && b2 ≤ 0xBF) &&
            (0x80 ≤ b3 && b3 ≤ 0xBF) && utf8Valid r
      | _ => false
    else false

/-- What `Store::read_file_descriptor` produces on success: the `u32`
version, the tag bytes (returned as a `String` in Rust), and the stream
position after the reads, which the method stores into
`data_start_address`. -/
structure FdResult where
  version : Nat
  tag : List Nat
  endPos : Nat
deriving DecidableEq

/-- `Store::read_file_descriptor`: seek to 0, read 4 bytes (version), read 8
bytes (tag length), read that many tag bytes, record the current position,
then convert the tag bytes with `String::from_utf8`; invalid UTF-8 yields
the `ERROR_FSTORE_VERSION` error. -/
def Store.read_file_descriptor (file : List Nat) : Except StoreErr FdResult :=
  let r1 := fileRead file 0 4
  let r2 := fileRead file r1.2 8
  let r3 := fileRead file r2.2 (leToNat r2.1)
  if utf8Valid r3.1 then .ok { version := leToNat r1.1, tag := r3.1, endPos := r3.2 }
  else .error (.invalidData "Unexpected version info.")

/-- `Store::validate_file_descriptor(value)`: `value == (STORE_VERSIONNUM,
STORE_VERSIONTAG.to_string())`.  String equality coincides with equality of
the underlying UTF-8 bytes. -/
def Store.validate_file_descriptor (value : Nat × List Nat) : Bool :=
  value.1 == 1 && value.2 == canonicalTagBytes

/-- The loop of `Store::index_blocks`: while `curpos < file.len()`, read 8
bytes into a zeroed buffer, compute `tbs = DataHeader::read_ahead(&buffer)`,
seek forward by `tbs` from the position after the read, and push the
resulting position.  `read_ahead` is the constant `12 + H.size ≥ 12 > 0`, so
each iteration advances `curpos` by at least 12; a fuel of `file.length + 1`
therefore always suffices, and the fuel argument only makes the recursion
structural. -/
def Store.index_loop (H : BlockHasher) (f : List Nat) : Nat → Nat → List Nat
  | 0, _ => []
  | fuel + 1, curpos =>
    if curpos < f.length then
      let r := fileRead f curpos 8
      let tbs := (DataHeader.read_ahead H r.1).toNat
      let next := r.2 + tbs
      next :: Store.index_loop H f fuel next
    else []

/-- `Store::new(filename, hasher)` — open an existing store: the file is
opened with `File::open` (read-only), the descriptor is read and validated
(`ERROR_FSTORE_INVALID` on mismatch), and `index_blocks(0)` populates
`block_addresses` starting from `data_start_address`, seeking back there at
the end. -/
def Store.new (H : BlockHasher) (file : List Nat) : Except StoreErr Store :=
  match Store.read_file_descriptor file with
  | .error e => .error e
  | .ok fd =>
    if Store.validate_file_descriptor (fd.version, fd.tag) then
      .ok { file := file
            pos := fd.endPos
            data_start_address := fd.endPos
            block_addresses := fd.endPos :: Store.index_loop H file (file.length + 1) fd.endPos
            mode := .readOnly }
    else .error (.invalidData "Invalid file descriptor.")

/-! ## Helper lemmas -/

theorem read_fd_error (file : List Nat) (e : StoreErr)
    (h : Store.read_file_descriptor file = .error e) :
    e = .invalidData "Unexpected version info." := by
  simp only [Store.read_file_descriptor] at h
  split at h
  · exact absurd h (by simp)
  · exact (Except.error.inj h).symm

theorem validate_eq_true_iff (v : Nat) (t : List Nat) :
    Store.validate_file_descriptor (v, t) = true ↔ v = 1 ∧ t = canonicalTagBytes := by
  simp [Store.validate_file_descriptor]

/-! ## Claims -/

/-- C1: the claimed serialize/deserialize round-trip fails on the code.  For
`lenSumHasher` — a hasher conforming to the `BlockHasher` trait whose digest
depends on its input, as BLAKE3's does — deserializing the exact bytes
produced by serializing the header built for payload `[1]` yields the
hash-mismatch error, because `deserialize` rehashes the whole header buffer
(twenty field bytes plus the stored digest) instead of the payload.  And for
`NullBlockHasher` deserialization succeeds but the header carries
`size_data = 0 ≠ 1 = len(p)`, because `DataHeader::new()` fixes
`size_data = 0` and `serialize` never records the payload length. -/
theorem c1_roundtrip_bug :
    DataHeader.deserialize lenSumHasher
        (DataHeader.serialize lenSumHasher DataHeader.new [1])
      = .err ⟨0, 0, 0⟩ "Block Hashes do not match."
    ∧ DataHeader.deserialize nullBlockHasher
        (DataHeader.serialize nullBlockHasher DataHeader.new [1])
      = .ok ⟨0, 0, 0⟩
    ∧ DataHeader.new.size_data = 0
    ∧ (0 : Nat) ≠ [1].length := by
  exact ⟨by decide, by decide, rfl, by decide⟩

/-- C3: `DataHeader::read_ahead` does not compute `size_data + 12 + D`; it
returns the constant `12 + T::size()` and ignores the buffer.  On the first
8 bytes of a header serialized with `size_data = 5` under the null hasher it
returns 12, not `5 + 12 + 0 = 17`.  The legacy `DataBlock::read_ahead` does
implement the claimed arithmetic (`size_data + 16 = size_data + 12 + 4`,
its checksum being 4 bytes wide). -/
theorem c3_read_ahead_bug :
    DataHeader.read_ahead nullBlockHasher
        ((DataHeader.serialize nullBlockHasher ⟨5, 0, 0⟩ (List.replicate 5 9)).take 8) = 12
    ∧ (12 : Int) ≠ 5 + 12 + 0
    ∧ DataBlock.read_ahead
        ((DataHeader.serialize nullBlockHasher ⟨5, 0, 0⟩ (List.replicate 5 9)).take 8)
      = some (5 + 12 + 4) := by
  exact ⟨by decide, by decide, by decide⟩

/-- C4: header width.  For any digest function of the width the code fixes
for BLAKE3 (32 bytes), `serialize` emits `20 + 32 = 52` bytes but `size()`
returns `20 + 256 = 276` (the 256 is bits, not bytes); for the null hasher
`size()` returns 20 but `serialize` emits 21 bytes, because its digest is
the one-byte `[0]`, not the empty sequence the claim asserts. -/
theorem c4_header_width_bug (digest : List Nat → List Nat) (hw : Blake3Width digest)
    (p : List Nat) :
    (DataHeader.serialize (b3BlockHasher digest) DataHeader.new p).length = 52
    ∧ DataHeader.size (b3BlockHasher digest) = 276
    ∧ (DataHeader.serialize nullBlockHasher DataHeader.new p).length = 21
    ∧ DataHeader.size nullBlockHasher = 20
    ∧ nullBlockHasher.hash p ≠ [] := by
  refine ⟨?_, rfl, ?_, rfl, by simp [nullBlockHasher]⟩
  · simp [DataHeader.serialize, b3BlockHasher, hw p]
  · simp [DataHeader.serialize, nullBlockHasher]

/-- Witness for `c4_header_width_bug` at a concrete 32-byte digest function
and the empty payload. -/
theorem c4_header_width_bug_witness :
    ((DataHeader.serialize (b3BlockHasher (fun _ => List.replicate 32 0)) DataHeader.new []).length = 52
     ∧ DataHeader.size (b3BlockHasher (fun _ => List.replicate 32 0)) = 276
     ∧ (DataHeader.serialize nullBlockHasher DataHeader.new []).length = 21
     ∧ DataHeader.size nullBlockHasher = 20
     ∧ nullBlockHasher.hash [] ≠ []) :=
  c4_header_width_bug (fun _ => List.replicate 32 0) (fun x => by simp) []

/-- C7: there is no payload-aware deserialization path.  `deserialize` only
receives the header buffer, hashes that entire buffer and compares the
result to the stored digest, so for any hasher whose digest depends on its
input (here `lenSumHasher`, standing in for BLAKE3) even an uncorrupted
block — the exact bytes `serialize` produced for payload `[2, 3]` — fails
with the hash-mismatch error instead of deserializing successfully, and
payload corruption is never examined at all. -/
theorem c7_integrity_bug :
    DataHeader.deserialize lenSumHasher
        (DataHeader.serialize lenSumHasher DataHeader.new [2, 3])
      = .err ⟨0, 0, 0⟩ "Block Hashes do not match." := by
  decide

/-- C9 counterexample: on the empty buffer (shorter than `20 + D` for every
hasher) `deserialize` panics on the out-of-range slice `data[0..8]` instead
of returning a TruncatedHeader error. -/
theorem c9_counterexample :
    DataHeader.deserialize nullBlockHasher [] = .panicked := by
  decide

/-- C9 amended: for every buffer shorter than 20 bytes `deserialize` panics
(out-of-range slicing); for a 32-byte-wide digest and a buffer of length at
least 20 but below `20 + 32 = 52` it returns the hash-mismatch `InvalidData`
error — there is no dedicated TruncatedHeader error — and in particular it
never succeeds on such buffers. -/
theorem c9_truncated_amended (H : BlockHasher) (digest : List Nat → List Nat)
    (hw : Blake3Width digest) (data : List Nat) :
    (data.length < 20 → DataHeader.deserialize H data = .panicked)
    ∧ (20 ≤ data.length → data.length < 52 →
        DataHeader.deserialize (b3BlockHasher digest) data
          = .err ⟨leToNat (data.take 8), leToNat ((data.drop 8).take 4),
                  leToNat ((data.drop 12).take 8)⟩ "Block Hashes do not match.") := by
  constructor
  · intro hlt
    unfold DataHeader.deserialize rustSlice rustSliceFrom
    by_cases h8 : 8 ≤ data.length
    · by_cases h12 : 12 ≤ data.length
      · have h20 : ¬ 20 ≤ data.length := by omega
        simp [h8, h12, h20]
      · simp [h8, h12]
    · simp [h8]
  · intro h20 h52
    have hne : digest data ≠ data.drop 20 := by
      intro he
      have hl := congrArg List.length he
      rw [hw data, List.length_drop] at hl
      omega
    unfold DataHeader.deserialize rustSlice rustSliceFrom
    simp [h20, show (8 : Nat) ≤ data.length by omega,
          show (12 : Nat) ≤ data.length by omega, b3BlockHasher, hne]

/-- Witness for `c9_truncated_amended`: a 19-byte buffer panics, and a
21-byte buffer under a 32-byte digest yields the hash-mismatch error. -/
theorem c9_truncated_amended_witness :
    DataHeader.deserialize nullBlockHasher (List.replicate 19 7) = .panicked
    ∧ DataHeader.deserialize (b3BlockHasher (fun _ => List.replicate 32 0))
        (List.replicate 21 0) = .err ⟨0, 0, 0⟩ "Block Hashes do not match." := by
  constructor
  · exact (c9_truncated_amended nullBlockHasher (fun _ => List.replicate 32 0)
      (fun x => by simp) (List.replicate 19 7)).1 (by decide)
  · rw [(c9_truncated_amended nullBlockHasher (fun _ => List.replicate 32 0)
      (fun x => by simp) (List.replicate 21 0)).2 (by decide) (by decide)]
    decide

/-- C10: the outcome of `deserialize` is a function of the single buffer it
receives: for any buffer of at least 20 bytes it succeeds exactly when the
hash of the ENTIRE buffer — all header bytes including the stored digest —
equals the bytes from offset 20 of that same buffer, and on mismatch it
returns the hash-mismatch error; the parsed fields are the little-endian
decodings of bytes 0..8, 8..12 and 12..20 of the buffer. -/
theorem c10_deserialize_buffer_only (H : BlockHasher) (data : List Nat)
    (h : 20 ≤ data.length) :
    (DataHeader.deserialize H data
        = .ok ⟨leToNat (data.take 8), leToNat ((data.drop 8).take 4),
               leToNat ((data.drop 12).take 8)⟩
      ↔ H.hash data = data.drop 20)
    ∧ (H.hash data ≠ data.drop 20 →
        DataHeader.deserialize H data
          = .err ⟨leToNat (data.take 8), leToNat ((data.drop 8).take 4),
                  leToNat ((data.drop 12).take 8)⟩ "Block Hashes do not match.") := by
  unfold DataHeader.deserialize rustSlice rustSliceFrom
  by_cases hc : H.hash data = data.drop 20 <;>
    simp [h, show (8 : Nat) ≤ data.length by omega,
          show (12 : Nat) ≤ data.length by omega, hc]

/-- Witness for `c10_deserialize_buffer_only` on a concrete 21-byte buffer
under the null hasher. -/
theorem c10_deserialize_buffer_only_witness :
    (DataHeader.deserialize nullBlockHasher (List.replicate 20 3 ++ [0])
        = .ok ⟨leToNat ((List.replicate 20 3 ++ [0]).take 8),
               leToNat (((List.replicate 20 3 ++ [0]).drop 8).take 4),
               leToNat (((List.replicate 20 3 ++ [0]).drop 12).take 8)⟩
      ↔ nullBlockHasher.hash (List.replicate 20 3 ++ [0])
          = (List.replicate 20 3 ++ [0]).drop 20)
    ∧ (nullBlockHasher.hash (List.replicate 20 3 ++ [0])
          ≠ (List.replicate 20 3 ++ [0]).drop 20 →
        DataHeader.deserialize nullBlockHasher (List.replicate 20 3 ++ [0])
          = .err ⟨leToNat ((List.replicate 20 3 ++ [0]).take 8),
                  leToNat (((List.replicate 20 3 ++ [0]).drop 8).take 4),
                  leToNat (((List.replicate 20 3 ++ [0]).drop 12).take 8)⟩
              "Block Hashes do not match.") :=
  c10_deserialize_buffer_only nullBlockHasher (List.replicate 20 3 ++ [0]) (by decide)

/-- C2: after `create` + one `append` of payload `[7]` under the null
hasher, `block_address(0)` is 53 — the offset just PAST block 0, i.e. the
end of the file — because `Store::write` pushes the post-write position,
while block 0's header actually begins at offset 31, right after the
31-byte descriptor (the file is descriptor ++ 21-byte header ++ payload).
`len()` does report 1 here, but the address index is misaligned by one
block. -/
theorem c2_index_bug :
    Store.block_address (Store.write nullBlockHasher (Store.create []) [7]) 0 = some 53
    ∧ (Store.create []).file.length = 31
    ∧ (Store.write nullBlockHasher (Store.create []) [7]).file
        = (Store.create []).file
            ++ DataHeader.serialize nullBlockHasher (DataHeader.newFor [7]) [7] ++ [7]
    ∧ (Store.write nullBlockHasher (Store.create []) [7]).file.length = 53
    ∧ Store.len (Store.write nullBlockHasher (Store.create []) [7]) = 1
    ∧ (53 : Nat) ≠ 31 := by
  exact ⟨by decide, by decide, by decide, by decide, by decide, by decide⟩

/-- C5: `Store::create` opens with `.create(true)` but never truncates, so
over a pre-existing 40-byte file the bytes beyond the 31-byte preamble
survive; and it returns the struct literal with `data_start_address: 0` —
not 31 — even over a fresh file.  Only the empty address index matches the
claim. -/
theorem c5_create_bug :
    (Store.create (List.replicate 40 255)).file = storeDescriptor ++ List.replicate 9 255
    ∧ (Store.create (List.replicate 40 255)).data_start_address = 0
    ∧ (Store.create []).file = storeDescriptor
    ∧ (Store.create []).data_start_address = 0
    ∧ (0 : Nat) ≠ 31
    ∧ (Store.create (List.replicate 40 255)).block_addresses = [] := by
  exact ⟨by decide, by decide, by decide, by decide, by decide, by decide⟩

/-- C6 counterexample: `Store::new` opens the file with `File::open`, which
is read-only, not read+write as the claim states; on the canonical
31-byte preamble it succeeds with a read-only handle. -/
theorem c6_opens_read_only :
    Store.new nullBlockHasher storeDescriptor
      = .ok ⟨storeDescriptor, 31, 31, [31], FileMode.readOnly⟩
    ∧ FileMode.readOnly ≠ FileMode.readWrite :=
  ⟨rfl, by decide⟩

/-- C6 amended: `Store::new` opens the file read-only; it parses the
4-byte version, 8-byte tag length and tag, succeeds exactly when the parsed
`(version, tag)` pair is `(1, "FSTOREV.01BINARYR01")`, in which case the
returned store has `data_start_address` (and cursor) at the end-of-preamble
offset and the scanned block index; every failure is an `InvalidData` error
(the descriptor-mismatch message, or the version message when the tag bytes
are not valid UTF-8). -/
theorem c6_open_amended (H : BlockHasher) (file : List Nat) :
    ((∃ s, Store.new H file = .ok s)
      ↔ (∃ fd, Store.read_file_descriptor file = .ok fd
            ∧ fd.version = 1 ∧ fd.tag = canonicalTagBytes))
    ∧ (∀ fd, Store.read_file_descriptor file = .ok fd →
        fd.version = 1 → fd.tag = canonicalTagBytes →
        Store.new H file
          = .ok { file := file, pos := fd.endPos, data_start_address := fd.endPos
                  block_addresses :=
                    fd.endPos :: Store.index_loop H file (file.length + 1) fd.endPos
                  mode := .readOnly })
    ∧ (∀ e, Store.new H file = .error e →
        e = .invalidData "Invalid file descriptor."
        ∨ e = .invalidData "Unexpected version info.") := by
  cases hfd : Store.read_file_descriptor file with
  | error e =>
    have hne : Store.new H file = .error e := by
      rw [Store.new, hfd]
    refine ⟨?_, ?_, ?_⟩
    · constructor
      · rintro ⟨s, hs⟩
        rw [hne] at hs
        exact absurd hs (by simp)
      · rintro ⟨fd, h1, _, _⟩
        exact absurd h1 (by simp)
    · intro fd h1 _ _
      exact absurd h1 (by simp)
    · intro e' he
      rw [hne] at he
      have h3 : e = e' := Except.error.inj he
      subst h3
      exact Or.inr (read_fd_error file e hfd)
  | ok fd =>
    by_cases hv : fd.version = 1 ∧ fd.tag = canonicalTagBytes
    · have hvb : Store.validate_file_descriptor (fd.version, fd.tag) = true :=
        (validate_eq_true_iff fd.version fd.tag).mpr hv
      have hok : Store.new H file
          = .ok { file := file, pos := fd.endPos, data_start_address := fd.endPos
                  block_addresses :=
                    fd.endPos :: Store.index_loop H file (file.length + 1) fd.endPos
                  mode := .readOnly } := by
        rw [Store.new, hfd]
        simp [hvb]
      refine ⟨?_, ?_, ?_⟩
      · exact ⟨fun _ => ⟨fd, rfl, hv.1, hv.2⟩, fun _ => ⟨_, hok⟩⟩
      · intro fd' h1 _ _
        have h3 : fd = fd' := Except.ok.inj h1
        subst h3
        exact hok
      · intro e' he
        rw [hok] at he
        exact absurd he (by simp)
    · have hvb : Store.validate_file_descriptor (fd.version, fd.tag) = false := by
        cases hb : Store.validate_file_descriptor (fd.version, fd.tag)
        · rfl
        · exact absurd ((validate_eq_true_iff fd.version fd.tag).mp hb) hv
      have herr : Store.new H file = .error (.invalidData "Invalid file descriptor.") := by
        rw [Store.new, hfd]
        simp [hvb]
      refine ⟨?_, ?_, ?_⟩
      · constructor
        · rintro ⟨s, hs⟩
          rw [herr] at hs
          exact absurd hs (by simp)
        · rintro ⟨fd', h1, h2, h3⟩
          have h4 : fd = fd' := Except.ok.inj h1
          subst h4
          exact absurd ⟨h2, h3⟩ hv
      · intro fd' h1 h2 h3
        have h4 : fd = fd' := Except.ok.inj h1
        subst h4
        exact absurd ⟨h2, h3⟩ hv
      · intro e' he
        rw [herr] at he
        exact Or.inl (Except.error.inj he).symm

/-- Witness for `c6_open_amended`: the canonical descriptor followed by one
extra byte opens successfully with `data_start_address = 31`. -/
theorem c6_open_amended_witness :
    Store.new nullBlockHasher (storeDescriptor ++ [5])
      = .ok { file := storeDescriptor ++ [5], pos := 31, data_start_address := 31
              block_addresses :=
                31 :: Store.index_loop nullBlockHasher (storeDescriptor ++ [5])
                        ((storeDescriptor ++ [5]).length + 1) 31
              mode := .readOnly } :=
  (c6_open_amended nullBlockHasher (storeDescriptor ++ [5])).2.1
    ⟨1, canonicalTagBytes, 31⟩ rfl rfl rfl

/-- C8: for an in-range index whose recorded address heads a block lying
within the file, `delete_block` rewrites exactly the four bytes at
`block_addresses[i] + delete_offset()` to the little-endian `u32` delete
flag `[1, 0, 0, 0]`, leaves every other byte, `data_start_address` and the
whole block-address index unchanged, and leaves the cursor at offset 0. -/
theorem c8_delete_block_frame (s : Store) (i addr : Nat)
    (hget : s.block_addresses.get? i = some addr)
    (hfit : addr + 12 ≤ s.file.length) :
    Store.delete_block s i
      = .ok { s with
                file := s.file.take (addr + 8) ++ [1, 0, 0, 0] ++ s.file.drop (addr + 12)
                pos := 0 } := by
  simp only [Store.delete_block, hget]
  have hfile : fileWrite s.file (addr + DataHeader.delete_offset)
        (u32LE DataHeader.delete_flag)
      = s.file.take (addr + 8) ++ [1, 0, 0, 0] ++ s.file.drop (addr + 12) := by
    rw [show u32LE DataHeader.delete_flag = [1, 0, 0, 0] from rfl,
        show addr + DataHeader.delete_offset = addr + 8 from rfl,
        fileWrite_of_le s.file [1, 0, 0, 0] (addr + 8) (by omega),
        show ([1, 0, 0, 0] : List Nat).length = 4 from rfl,
        show addr + 8 + 4 = addr + 12 from by omega]
  rw [hfile]

/-- Witness for `c8_delete_block_frame` on a concrete store whose second
indexed block starts at offset 20 inside a 40-byte file. -/
theorem c8_delete_block_frame_witness :
    (⟨List.replicate 40 9, 7, 31, [2, 20], .readWrite⟩ : Store).block_addresses.get? 1
        = some 20
    ∧ 20 + 12 ≤ (⟨List.replicate 40 9, 7, 31, [2, 20], .readWrite⟩ : Store).file.length
    ∧ Store.delete_block (⟨List.replicate 40 9, 7, 31, [2, 20], .readWrite⟩ : Store) 1
        = .ok { (⟨List.replicate 40 9, 7, 31, [2, 20], .readWrite⟩ : Store) with
                  file := (List.replicate 40 9 : List Nat).take 28 ++ [1, 0, 0, 0]
                            ++ (List.replicate 40 9 : List Nat).drop 32
                  pos := 0 } :=
  ⟨by decide, by decide,
   c8_delete_block_frame ⟨List.replicate 40 9, 7, 31, [2, 20], .readWrite⟩ 1 20
     (by decide) (by decide)⟩
